import Mathlib

/-!
Verification of the per-connection streaming pipeline of `src/index.js`
(voice-assistant relay).  The embedding models:

* the Reply Pipeline `processTextAndSpeak` (src/index.js lines 74-117),
  with the Gemini generation call and the TTS synthesis call made
  explicit parameters (`Except` models a thrown exception), and the
  outbound websocket sends recorded as a list of messages;
* base64 encoding of the synthesized audio bytes
  (`audioContent.toString('base64')`, line 104);
* the per-connection session state machine of `wss.on('connection')`
  (lines 120-186): the nullable `recognizeStream` handle, the
  `audioInput` frame buffer, the `audioInputStream` writable, and the
  handlers for `'message'`, recognition `'error'`/`'end'`, `'close'`
  and websocket `'error'`.  Writes/ends on recognition streams are
  recorded as an explicit action trace; stream objects are identified
  by a fresh creation counter.
-/

namespace Sumathi

/-- Outbound websocket messages the server can send (src/index.js lines
106, 107 and 114). -/
inductive OutMsg where
  | audio (data : String)
  | audioComplete
  | error (message : String)
deriving DecidableEq, Repr

/-- Strip leading whitespace characters from a character list. -/
def trimLeadingWs : List Char → List Char
  | [] => []
  | c :: cs => if c.isWhitespace then trimLeadingWs cs else c :: cs

/-- JS `String.prototype.trim()` modelled executably: strip whitespace
from both ends of the string. -/
def jsTrim (s : String) : String :=
  String.mk ((trimLeadingWs (trimLeadingWs s.data).reverse).reverse)

/-- The base64 alphabet used by Node's `Buffer.toString('base64')`. -/
def base64Alphabet : List Char :=
  "ABCDEFGHIJKLMNOPQRSTUVWXYZabcdefghijklmnopqrstuvwxyz0123456789+/".toList

/-- The base64 digit for a 6-bit group. -/
def b64char (n : Nat) : Char := base64Alphabet.getD n '?'

/-- Base64 encoding (with padding) of a byte sequence, as produced by
`audioContent.toString('base64')` in src/index.js line 104. -/
def base64Encode : List Nat → String
  | [] => ""
  | [a] => String.mk [b64char (a / 4), b64char (a % 4 * 16), '=', '=']
  | [a, b] =>
      String.mk [b64char (a / 4), b64char (a % 4 * 16 + b / 16),
        b64char (b % 16 * 4), '=']
  | a :: b :: c :: rest =>
      String.mk [b64char (a / 4), b64char (a % 4 * 16 + b / 16),
        b64char (b % 16 * 4 + c / 64), b64char (c % 64)]
        ++ base64Encode rest

/-- Observable outcome of one `processTextAndSpeak` invocation: whether
the generation and synthesis collaborators were invoked, and the
outbound messages actually sent on the websocket. -/
structure PipelineResult where
  genCalled : Bool
  ttsCalled : Bool
  sent : List OutMsg
deriving DecidableEq, Repr

/-- Shallow embedding of `processTextAndSpeak` (src/index.js lines
74-117).  `gen` is the result of `geminiModel.generateContent(text)`
(`Except.error m` models a thrown exception with message `m`); `tts`
is the result of `ttsClient.synthesizeSpeech` on the generated text,
returning the synthesized bytes; `wsOpen` is `ws.readyState === ws.OPEN`
at send time.  The try/catch sends a single error message on any
exception; both send sites are guarded by the `wsOpen` check. -/
def processTextAndSpeak (text : String) (gen : Except String String)
    (tts : String → Except String (List Nat)) (wsOpen : Bool) :
    PipelineResult :=
  if (jsTrim text).length = 0 then
    ⟨false, false, []⟩
  else
    match gen with
    | Except.error msg => ⟨true, false, if wsOpen then [OutMsg.error msg] else []⟩
    | Except.ok fullText =>
      if jsTrim fullText = "" then
        ⟨true, false, []⟩
      else
        match tts fullText with
        | Except.error msg => ⟨true, true, if wsOpen then [OutMsg.error msg] else []⟩
        | Except.ok bytes =>
            ⟨true, true,
              if wsOpen then
                [OutMsg.audio (base64Encode bytes), OutMsg.audioComplete]
              else []⟩

/-- Per-connection session state from `wss.on('connection')`
(src/index.js lines 120-186): the nullable `recognizeStream` handle
(streams identified by their creation index), the `audioInput` buffer
of frames awaiting a stream, and the fresh-index counter for the next
stream the session would open. -/
structure Session where
  recognizeStream : Option Nat
  audioInput : List Nat
  nextStreamId : Nat
deriving DecidableEq, Repr

/-- The session state right after `wss.on('connection')` runs:
`recognizeStream = null`, `audioInput = []`. -/
def initSession : Session := ⟨none, [], 0⟩

/-- Observable operations performed on recognition stream objects. -/
inductive Action where
  | openStream (sid : Nat)
  | write (sid : Nat) (frame : Nat)
  | endStream (sid : Nat)
deriving DecidableEq, Repr

/-- The `write` callback of the `audioInputStream` writable
(src/index.js lines 127-135): if a recognition stream exists the chunk
is written to it, otherwise it is pushed onto `audioInput`. -/
def audioInputStreamWrite (s : Session) (chunk : Nat) :
    Session × List Action :=
  match s.recognizeStream with
  | some sid => (s, [Action.write sid chunk])
  | none => ({ s with audioInput := s.audioInput ++ [chunk] }, [])

/-- The `ws.on('message')` handler for a binary frame (src/index.js
lines 144-169): if no recognition stream exists, open a fresh one,
write every buffered frame to it in order, clear the buffer; then in
all cases route the incoming frame through `audioInputStream.write`. -/
def onMessage (s : Session) (frame : Nat) : Session × List Action :=
  match s.recognizeStream with
  | some _ => audioInputStreamWrite s frame
  | none =>
      let sid := s.nextStreamId
      let s1 : Session :=
        { recognizeStream := some sid, audioInput := [],
          nextStreamId := sid + 1 }
      let drained := s.audioInput.map (Action.write sid)
      let p := audioInputStreamWrite s1 frame
      (p.1, Action.openStream sid :: (drained ++ p.2))

/-- The `ws.on('close')` / `ws.on('error')` teardown (src/index.js
lines 171-185): if a recognition stream exists, end it and null the
handle; otherwise do nothing. -/
def cleanup (s : Session) : Session × List Action :=
  match s.recognizeStream with
  | some sid => ({ s with recognizeStream := none }, [Action.endStream sid])
  | none => (s, [])

/-- Events a live session reacts to. -/
inductive Event where
  | message (frame : Nat)
  | streamError
  | streamEnd
  | wsClose
  | wsError
deriving DecidableEq, Repr

/-- One dispatch of the session's event handlers.  The recognition
stream `'error'` handler (src/index.js lines 156-158) only logs and
leaves the session state unchanged; the `'end'` handler (lines
159-161) sets `recognizeStream = null`. -/
def step (s : Session) : Event → Session × List Action
  | Event.message f => onMessage s f
  | Event.streamError => (s, [])
  | Event.streamEnd => ({ s with recognizeStream := none }, [])
  | Event.wsClose => cleanup s
  | Event.wsError => cleanup s

/-- Run a session over a list of events, accumulating the stream
actions performed. -/
def runEvents (s : Session) : List Event → Session × List Action
  | [] => (s, [])
  | e :: es =>
      let p := step s e
      let q := runEvents p.1 es
      (q.1, p.2 ++ q.2)

/-- The buffer/stream invariant: whenever a recognition stream handle
exists, the `audioInput` buffer is empty. -/
def BufEmptyWhenStream (s : Session) : Prop :=
  s.recognizeStream.isSome → s.audioInput = []

instance (s : Session) : Decidable (BufEmptyWhenStream s) := by
  unfold BufEmptyWhenStream
  infer_instance

theorem bufEmptyWhenStream_step (s : Session) (e : Event)
    (h : BufEmptyWhenStream s) : BufEmptyWhenStream (step s e).1 := by
  cases e with
  | message f =>
      simp only [step, onMessage]
      cases hrs : s.recognizeStream with
      | none =>
          simp only [audioInputStreamWrite, BufEmptyWhenStream]
          intro _
          trivial
      | some sid =>
          simp only [audioInputStreamWrite, hrs]
          exact h
  | streamError => exact h
  | streamEnd =>
      intro hcontra
      simp only [step] at hcontra
      simp at hcontra
  | wsClose =>
      simp only [step, cleanup]
      cases hrs : s.recognizeStream with
      | none => exact h
      | some sid =>
          intro hcontra
          simp at hcontra
  | wsError =>
      simp only [step, cleanup]
      cases hrs : s.recognizeStream with
      | none => exact h
      | some sid =>
          intro hcontra
          simp at hcontra

/-- Claim C1: the spec says a recognition-stream error transitions the
stream to Ended, so a later frame opens a fresh stream and is never
written to the errored stream.  The code's `'error'` handler
(src/index.js lines 156-158) only logs: evaluating the session on the
trace "frame 0; stream error; frame 1" shows that frame 1 is written
to stream 0 — the errored stream — and no second stream is opened
(nextStreamId is still 1). -/
theorem c1_frame_after_error_written_to_dead_stream :
    Sumathi.runEvents Sumathi.initSession
        [Event.message 0, Event.streamError, Event.message 1] =
      (⟨some 0, [], 1⟩,
        [Action.openStream 0, Action.write 0 0, Action.write 0 1]) := by
  decide

/-- Claim C2: for every sequence of frames buffered before a stream is
active, the arrival of a frame with no stream open performs exactly:
open a fresh stream, write the buffered frames to it in the order they
were appended (each exactly once), then write the incoming frame; the
buffer is left empty. -/
theorem c2_drain_fifo_exactly_once (frames : List Nat) (k f : Nat) :
    Sumathi.onMessage ⟨none, frames, k⟩ f =
      (⟨some k, [], k + 1⟩,
        Action.openStream k ::
          (frames.map (Action.write k) ++ [Action.write k f])) := by
  simp [onMessage, audioInputStreamWrite]

/-- Claim C3: on a non-empty transcript, when generation returns a
non-empty reply and synthesis returns audio bytes, exactly two
messages are sent in order on the open websocket: an audio message
carrying the base64 encoding of the bytes, then audio_complete. -/
theorem c3_success_two_messages (text reply : String) (bytes : List Nat)
    (ht : (Sumathi.jsTrim text).length ≠ 0) (hr : Sumathi.jsTrim reply ≠ "") :
    Sumathi.processTextAndSpeak text (Except.ok reply)
        (fun _ => Except.ok bytes) true =
      ⟨true, true,
        [OutMsg.audio (Sumathi.base64Encode bytes), OutMsg.audioComplete]⟩ := by
  simp [processTextAndSpeak, ht, hr]

theorem c3_success_two_messages_witness :
    Sumathi.processTextAndSpeak "hello" (Except.ok "reply")
        (fun _ => Except.ok [1, 2]) true =
      ⟨true, true, [OutMsg.audio "AQI=", OutMsg.audioComplete]⟩ := by
  have h := c3_success_two_messages "hello" "reply" [1, 2]
    (by decide) (by decide)
  rw [h]
  rfl

/-- Claim C4: when generation or synthesis throws, exactly one error
message is sent, no audio or audio_complete message is sent, and the
exception does not escape (the pipeline returns a result). -/
theorem c4_exception_single_error (text msg reply : String)
    (tts : String → Except String (List Nat))
    (ht : (Sumathi.jsTrim text).length ≠ 0) (hr : Sumathi.jsTrim reply ≠ "") :
    Sumathi.processTextAndSpeak text (Except.error msg) tts true =
        ⟨true, false, [OutMsg.error msg]⟩ ∧
    Sumathi.processTextAndSpeak text (Except.ok reply)
        (fun _ => Except.error msg) true =
        ⟨true, true, [OutMsg.error msg]⟩ := by
  constructor
  · simp [processTextAndSpeak, ht]
  · simp [processTextAndSpeak, ht, hr]

theorem c4_exception_single_error_witness :
    Sumathi.processTextAndSpeak "hello" (Except.error "boom")
        (fun _ => Except.ok []) true = ⟨true, false, [OutMsg.error "boom"]⟩ ∧
    Sumathi.processTextAndSpeak "hello" (Except.ok "reply")
        (fun _ => Except.error "boom") true =
        ⟨true, true, [OutMsg.error "boom"]⟩ :=
  c4_exception_single_error "hello" "boom" "reply" (fun _ => Except.ok [])
    (by decide) (by decide)

/-- Claim C5: on empty or whitespace-only input text the pipeline
returns without calling generation, without calling synthesis, and
without sending any message. -/
theorem c5_empty_text_short_circuit (text : String)
    (gen : Except String String) (tts : String → Except String (List Nat))
    (wsOpen : Bool) (h : (Sumathi.jsTrim text).length = 0) :
    Sumathi.processTextAndSpeak text gen tts wsOpen = ⟨false, false, []⟩ := by
  simp [processTextAndSpeak, h]

theorem c5_empty_text_short_circuit_witness :
    Sumathi.processTextAndSpeak "   " (Except.ok "reply")
        (fun _ => Except.ok [1]) true = ⟨false, false, []⟩ :=
  c5_empty_text_short_circuit "   " (Except.ok "reply")
    (fun _ => Except.ok [1]) true (by decide)

/-- Claim C6: when generation returns a reply that is empty after
trimming, synthesis is not called and no message is sent — a silent
skip, not an error. -/
theorem c6_empty_reply_short_circuit (text reply : String)
    (tts : String → Except String (List Nat)) (wsOpen : Bool)
    (ht : (Sumathi.jsTrim text).length ≠ 0) (hr : Sumathi.jsTrim reply = "") :
    Sumathi.processTextAndSpeak text (Except.ok reply) tts wsOpen =
      ⟨true, false, []⟩ := by
  simp [processTextAndSpeak, ht, hr]

theorem c6_empty_reply_short_circuit_witness :
    Sumathi.processTextAndSpeak "hello" (Except.ok "  ")
        (fun _ => Except.ok [1]) true = ⟨true, false, []⟩ :=
  c6_empty_reply_short_circuit "hello" "  " (fun _ => Except.ok [1]) true
    (by decide) (by decide)

/-- Claim C7: session teardown is idempotent — running the close or
error cleanup a second time (in any combination) leaves the state
unchanged and performs no stream operation at all: in particular it
never writes to or ends the already-ended stream. -/
theorem c7_teardown_idempotent (s : Session) :
    Sumathi.step (Sumathi.step s Event.wsClose).1 Event.wsClose =
        ((Sumathi.step s Event.wsClose).1, []) ∧
    Sumathi.step (Sumathi.step s Event.wsError).1 Event.wsError =
        ((Sumathi.step s Event.wsError).1, []) ∧
    Sumathi.step (Sumathi.step s Event.wsClose).1 Event.wsError =
        ((Sumathi.step s Event.wsClose).1, []) := by
  cases hrs : s.recognizeStream <;>
    simp [step, cleanup, hrs]

/-- Claim C8: after the recognition engine signals end on a stream,
the next audio frame opens a fresh stream (new identity, distinct from
the ended one) and is written to the new stream, never to the ended
stream. -/
theorem c8_restart_after_end (sid k f : Nat) (h : sid < k) :
    Sumathi.step (Sumathi.step ⟨some sid, [], k⟩ Event.streamEnd).1
        (Event.message f) =
      (⟨some k, [], k + 1⟩, [Action.openStream k, Action.write k f]) ∧
    sid ≠ k := by
  constructor
  · simp [step, onMessage, audioInputStreamWrite]
  · exact Nat.ne_of_lt h

theorem c8_restart_after_end_witness :
    Sumathi.step (Sumathi.step ⟨some 0, [], 1⟩ Event.streamEnd).1
        (Event.message 5) =
      (⟨some 1, [], 2⟩, [Action.openStream 1, Action.write 1 5]) ∧
    (0 : Nat) ≠ 1 :=
  c8_restart_after_end 0 1 5 (by decide)

/-- Claim C9: when the websocket is not open, no outbound message is
sent by any path of the pipeline — the send is silently dropped, with
no retry — because both send sites check the open state first. -/
theorem c9_closed_transport_drops_sends (text : String)
    (gen : Except String String) (tts : String → Except String (List Nat)) :
    (Sumathi.processTextAndSpeak text gen tts false).sent = [] := by
  unfold processTextAndSpeak
  cases gen with
  | error msg => by_cases h : (jsTrim text).length = 0 <;> simp [h]
  | ok fullText =>
      by_cases h : (jsTrim text).length = 0
      · simp [h]
      · by_cases hf : jsTrim fullText = ""
        · simp [h, hf]
        · cases htts : tts fullText <;> simp [h, hf, htts]

/-- Claim C10: per-session invariant — after any sequence of events
starting from a fresh connection, whenever a recognition stream handle
exists the audio frame buffer is empty: the buffer is cleared in the
very step that opens a stream, and frames are only appended while no
stream exists. -/
theorem c10_buffer_empty_when_stream_exists (es : List Event) :
    Sumathi.BufEmptyWhenStream (Sumathi.runEvents Sumathi.initSession es).1 := by
  have gen : ∀ (s : Session), BufEmptyWhenStream s →
      BufEmptyWhenStream (runEvents s es).1 := by
    induction es with
    | nil => intro s hs; exact hs
    | cons e es ih =>
        intro s hs
        exact ih (step s e).1 (bufEmptyWhenStream_step s e hs)
  exact gen initSession (by decide)

end Sumathi
